import Mathlib

/-!
Verification of the subpath reverse-proxy behaviour of the theeye-website
repository.  The nginx configuration (location block for /ctf/ with its
sub_filter rules, proxy_hide_header directives, proxy_redirect off and
proxy_cache_valid TTLs) supplies every constant below; the surrounding
engine semantics (literal substring substitution, forwarding, caching) are
modelled from the design document, which describes them as ordered literal
substring replacement, header stripping, and TTL-based caching.  Bodies,
paths and header names are modelled as lists of characters.
-/

namespace TheEye

/-- One pass of literal substring replacement, with an explicit fuel
argument so that the recursion is structural (fuel bounds the number of
scanning steps; one unit is consumed per step, and a step always consumes
at least one character of the remaining input, so fuel equal to the input
length suffices).  Scanning is left to right; at a match the replacement
is emitted and the scan resumes after the matched text, so replacements
are non-overlapping and the emitted replacement text is never rescanned
within the pass. -/
def replaceAllAux (pat repl : List Char) : Nat → List Char → List Char
  | 0, s => s
  | _ + 1, [] => []
  | fuel + 1, c :: rest =>
    if !pat.isEmpty && pat.isPrefixOf (c :: rest) then
      repl ++ replaceAllAux pat repl fuel ((c :: rest).drop pat.length)
    else
      c :: replaceAllAux pat repl fuel rest

/-- Modelled from the spec: a single left-to-right pass replacing every
non-overlapping occurrence of `pat` by `repl` (literal substrings, not
regular expressions). -/
def replaceAll (pat repl s : List Char) : List Char :=
  replaceAllAux pat repl s.length s

/-- Decides whether `pat` occurs as a contiguous substring of the input. -/
def containsSub (pat : List Char) : List Char → Bool
  | [] => pat.isEmpty
  | c :: rest => pat.isPrefixOf (c :: rest) || containsSub pat rest

/-- Data model of one rewrite rule (a sub_filter directive). -/
structure RewriteRule where
  matchPattern : List Char
  replacement : List Char
deriving DecidableEq

/-- Applies one rewrite rule to a body. -/
def applyRule (s : List Char) (r : RewriteRule) : List Char :=
  replaceAll r.matchPattern r.replacement s

/-- Modelled from the spec: the Body Rewriter applies the ordered rule
list, one single pass per rule, rules in configured order. -/
def rewriteBody (rules : List RewriteRule) (s : List Char) : List Char :=
  rules.foldl applyRule s

/-- The apostrophe character, used by the fifth sub_filter pattern. -/
def apos : Char := Char.ofNat 39

/-- The six sub_filter rules of the /ctf/ location block, in configuration
order. -/
def subFilterRules : List RewriteRule :=
  [ ⟨"href=\"/".data, "href=\"/ctf/".data⟩,
    ⟨"src=\"/".data, "src=\"/ctf/".data⟩,
    ⟨"action=\"/".data, "action=\"/ctf/".data⟩,
    ⟨"url(\"/".data, "url(\"/ctf/".data⟩,
    ⟨"url(".data ++ [apos, '/'], "url(".data ++ [apos] ++ "/ctf/".data⟩,
    ⟨"url(/".data, "url(/ctf/".data⟩ ]

/-- Data model of one routing rule: a location path, the upstream origin,
the URI the matched portion is replaced with, and whether the matched
location is stripped before forwarding.  From the configuration: location
/ctf/ with proxy_pass https://ctf.vercel.app/ (trailing URI /). -/
structure RouteRule where
  location : List Char
  upstreamOrigin : List Char
  passUri : List Char
  stripMatched : Bool
deriving DecidableEq

/-- The /ctf/ location block of the configuration: its proxy_pass carries
the URI /, so the matched /ctf/ portion of the path is replaced by /. -/
def ctfRoute : RouteRule :=
  ⟨"/ctf/".data, "https://ctf.vercel.app".data, "/".data, true⟩

/-- The default root location serving the static site locally. -/
def rootRoute : RouteRule := ⟨"/".data, [], [], false⟩

/-- The routing table, as configured. -/
def routes : List RouteRule := [ctfRoute, rootRoute]

/-- Modelled from the spec: the Router returns the rule with the longest
location that is a literal prefix of the request path, or none when no
rule matches (which signals local serving, not an error). -/
def matchRoute (rules : List RouteRule) (p : List Char) : Option RouteRule :=
  rules.foldl
    (fun best r =>
      if r.location.isPrefixOf p then
        match best with
        | none => some r
        | some b =>
          if b.location.length < r.location.length then some r else some b
      else best)
    none

/-- Modelled from the spec: the upstream path is the request path with the
matched location replaced by the passUri when stripMatched holds,
otherwise the full path unchanged. -/
def upstreamPath (r : RouteRule) (p : List Char) : List Char :=
  if r.stripMatched then r.passUri ++ p.drop r.location.length else p

/-- The response headers hidden by the configuration
(proxy_hide_header directives of the /ctf/ location block). -/
def hideHeaders : List (List Char) :=
  [ "X-Frame-Options".data,
    "X-Content-Type-Options".data,
    "Content-Security-Policy".data,
    "X-XSS-Protection".data ]

/-- Modelled from the spec: drop every response header whose name is in
the configured strip list. -/
def stripHeaders (strip : List (List Char))
    (hs : List (List Char × List Char)) : List (List Char × List Char) :=
  hs.filter (fun h => !(strip.contains h.1))

/-- proxy_redirect is off in the configuration. -/
def proxyRedirect : Bool := false

/-- Modelled from the spec: the Location rewriting that a proxy_redirect
equivalent would perform when enabled (prepend the matched location to the
Location value); disabled by default. -/
def rewriteLocationHeaders
    (hs : List (List Char × List Char)) : List (List Char × List Char) :=
  hs.map (fun h =>
    if h.1 == "Location".data then (h.1, "/ctf".data ++ h.2) else h)

/-- Modelled from the spec: downstream response headers are the upstream
headers with the hidden names stripped; Location rewriting would apply
only under proxyRedirect, which the configuration turns off. -/
def responseHeaders
    (hs : List (List Char × List Char)) : List (List Char × List Char) :=
  if proxyRedirect then rewriteLocationHeaders (stripHeaders hideHeaders hs)
  else stripHeaders hideHeaders hs

/-- Modelled from the spec: the upstream status is relayed verbatim and
the header policy applied. -/
def relayResponse (status : Nat) (hs : List (List Char × List Char)) :
    Nat × List (List Char × List Char) :=
  (status, responseHeaders hs)

/-- First header with the given name, if any. -/
def findHeader (n : List Char)
    (hs : List (List Char × List Char)) : Option (List Char) :=
  (hs.find? (fun h => h.1 == n)).map (fun h => h.2)

/-- The content types the Body Rewriter operates on
(sub_filter_types plus the implicit text/html). -/
def subFilterTypes : List (List Char) :=
  ["text/html".data, "text/css".data, "application/javascript".data]

/-- Modelled from the spec: the Body Rewriter runs only when the content
type is in the allow-list; every other response body passes through
unchanged. -/
def processBody (contentType body : List Char) : List Char :=
  if subFilterTypes.contains contentType then rewriteBody subFilterRules body
  else body

/-- Modelled from the spec: upstream-facing failures of one request. -/
inductive UpstreamError where
  | connectionRefused
  | timeout
deriving DecidableEq

/-- A plain HTTP response: status, headers, body. -/
structure HttpResponse where
  statusCode : Nat
  headers : List (List Char × List Char)
  body : List Char
deriving DecidableEq

/-- Modelled from the spec: the gateway error returned downstream when
the upstream is unreachable. -/
def badGateway : HttpResponse := ⟨502, [], []⟩

/-- Modelled from the spec: the Forwarder consumes exactly the first
attempt outcome — it never retries automatically — and maps a failure to
the 502 gateway response; it is a total function, so no failure can
terminate the serving process. -/
def forwardOutcome :
    List (Except UpstreamError HttpResponse) → HttpResponse
  | [] => badGateway
  | Except.error _ :: _ => badGateway
  | Except.ok r :: _ => ⟨r.statusCode, responseHeaders r.headers, r.body⟩

/-- The cacheable statuses and their TTLs in seconds, from
proxy_cache_valid 200 1h and proxy_cache_valid 404 1m. -/
def cacheValid (status : Nat) : Option Nat :=
  if status = 200 then some 3600 else if status = 404 then some 60 else none

/-- Data model of a cache entry. -/
structure CacheEntry where
  statusCode : Nat
  body : List Char
  expiresAt : Nat
deriving DecidableEq

/-- Modelled from the spec: an entry whose expiresAt has passed is
treated as absent. -/
def cacheLookup (c : Option CacheEntry) (now : Nat) : Option CacheEntry :=
  match c with
  | none => none
  | some e => if now < e.expiresAt then some e else none

/-- Modelled from the spec: serve a fresh cache entry without contacting
the upstream; on a miss fetch from the upstream and, when the status is
cacheable, overwrite the entry with expiry now plus its TTL.  The result
is the response sent downstream, the new cache state, and whether the
upstream was contacted. -/
def handleCached (c : Option CacheEntry) (now : Nat)
    (upstream : Nat × List Char) :
    (Nat × List Char) × Option CacheEntry × Bool :=
  match cacheLookup c now with
  | some e => ((e.statusCode, e.body), some e, false)
  | none =>
    match cacheValid upstream.1 with
    | some ttl =>
      (upstream, some ⟨upstream.1, upstream.2, now + ttl⟩, true)
    | none => (upstream, none, true)

/-- A pattern that does not occur in the input is not replaced: the pass
returns the input unchanged, for any fuel. -/
theorem replaceAllAux_of_not_contains (pat repl : List Char) (fuel : Nat)
    (s : List Char) (h : containsSub pat s = false) :
    replaceAllAux pat repl fuel s = s := by
  induction fuel generalizing s with
  | zero => rfl
  | succ n ih =>
    cases s with
    | nil => rfl
    | cons c rest =>
      simp only [containsSub, Bool.or_eq_false_iff] at h
      simp only [replaceAllAux, h.1, Bool.and_false, Bool.false_eq_true,
        if_neg, reduceIte]
      exact congrArg (c :: ·) (ih rest h.2)

/-- A pass over a body not containing the pattern is the identity. -/
theorem replaceAll_of_not_contains (pat repl s : List Char)
    (h : containsSub pat s = false) : replaceAll pat repl s = s :=
  replaceAllAux_of_not_contains pat repl s.length s h

/-- The Body Rewriter is the identity on a body in which no rule pattern
occurs. -/
theorem rewriteBody_of_no_match (rules : List RewriteRule) (s : List Char)
    (h : rules.all (fun r => !(containsSub r.matchPattern s)) = true) :
    rewriteBody rules s = s := by
  induction rules with
  | nil => rfl
  | cons r rest ih =>
    simp only [List.all_cons, Bool.and_eq_true, Bool.not_eq_true',
      Bool.not_eq_eq_eq_not, Bool.not_true] at h
    have hr : applyRule s r = s :=
      replaceAll_of_not_contains r.matchPattern r.replacement s h.1
    show rewriteBody rest (applyRule s r) = s
    rw [hr]
    exact ih (by
      simp only [List.all_eq_true] at h ⊢
      exact fun x hx => h.2 x hx)

/-- Claim C2: the Body Rewriter maps each table entry as configured —
href="/ becomes href="/ctf/, src="/main.js bodies gain the /ctf prefix,
and likewise for action and url( patterns; every non-overlapping
occurrence is replaced, as the final two-occurrence body shows. -/
theorem rewrite_table_correct :
    rewriteBody subFilterRules ("href=\"/\"".data) = "href=\"/ctf/\"".data ∧
    rewriteBody subFilterRules ("src=\"/main.js\"".data) =
      "src=\"/ctf/main.js\"".data ∧
    rewriteBody subFilterRules ("action=\"/submit\"".data) =
      "action=\"/ctf/submit\"".data ∧
    rewriteBody subFilterRules ("url(\"/api/data\")".data) =
      "url(\"/ctf/api/data\")".data ∧
    rewriteBody subFilterRules ("src=\"/a.js\" src=\"/b.js\"".data) =
      "src=\"/ctf/a.js\" src=\"/ctf/b.js\"".data := by
  refine ⟨by decide, by decide, by decide, by decide, by decide⟩

/-- Claim C1, counterexample: the Body Rewriter is not idempotent — the
pattern href="/ is itself a prefix of its replacement href="/ctf/, so a
second application of the rewriter maps href="/ctf/ to href="/ctf/ctf/,
contradicting the claimed no-further-change guarantee. -/
theorem rewrite_not_idempotent :
    rewriteBody subFilterRules ("href=\"/".data) = "href=\"/ctf/".data ∧
    rewriteBody subFilterRules ("href=\"/ctf/".data) =
      "href=\"/ctf/ctf/".data ∧
    rewriteBody subFilterRules (rewriteBody subFilterRules ("href=\"/".data))
      ≠ rewriteBody subFilterRules ("href=\"/".data) := by
  refine ⟨by decide, by decide, by decide⟩

/-- Claim C1, amended: a second application of the Body Rewriter produces
no further changes only when no rule pattern occurs in the output of the
first application; in general re-application does rewrite again (see the
counterexample). -/
theorem rewrite_idempotent_when_output_clean (b : List Char)
    (h : subFilterRules.all
      (fun r => !(containsSub r.matchPattern (rewriteBody subFilterRules b)))
      = true) :
    rewriteBody subFilterRules (rewriteBody subFilterRules b) =
      rewriteBody subFilterRules b :=
  rewriteBody_of_no_match subFilterRules (rewriteBody subFilterRules b) h

/-- Witness for the amended claim C1 at a body free of every pattern. -/
theorem rewrite_idempotent_when_output_clean_witness :
    subFilterRules.all
      (fun r =>
        !(containsSub r.matchPattern
          (rewriteBody subFilterRules ("<p>hello</p>".data)))) = true ∧
    rewriteBody subFilterRules
        (rewriteBody subFilterRules ("<p>hello</p>".data)) =
      rewriteBody subFilterRules ("<p>hello</p>".data) :=
  ⟨by decide, rewrite_idempotent_when_output_clean ("<p>hello</p>".data)
    (by decide)⟩

/-- Claim C8: for the configured six-rule set, no rule that comes later in
the configured order has its pattern occurring in the replacement text of
any earlier rule, so a later pass never re-matches text that an earlier
pass produced. -/
theorem later_rules_no_rematch :
    List.Pairwise
      (fun r₁ r₂ => containsSub r₂.matchPattern r₁.replacement = false)
      subFilterRules := by
  decide

/-- Claim C10: the Body Rewriter is the identity on any body in which none
of the six literal patterns occurs, and such a body also passes through
processBody unchanged even under the text/html content type. -/
theorem unmatched_body_unchanged (b : List Char)
    (h : subFilterRules.all (fun r => !(containsSub r.matchPattern b))
      = true) :
    rewriteBody subFilterRules b = b ∧
    processBody ("text/html".data) b = b := by
  have hb := rewriteBody_of_no_match subFilterRules b h
  have hct : subFilterTypes.contains ("text/html".data) = true := by decide
  exact ⟨hb, by simp [processBody, hct, hb]⟩

/-- Witness for claim C10 at a body using single-quoted attributes and a
bare JavaScript path, which match none of the patterns. -/
theorem unmatched_body_unchanged_witness :
    subFilterRules.all
      (fun r =>
        !(containsSub r.matchPattern
          ("<a href=".data ++ [apos, '/', 'x', apos] ++ "> fetch(".data ++
            [apos] ++ "/api".data ++ [apos, ')']))) = true ∧
    rewriteBody subFilterRules
        ("<a href=".data ++ [apos, '/', 'x', apos] ++ "> fetch(".data ++
          [apos] ++ "/api".data ++ [apos, ')']) =
      ("<a href=".data ++ [apos, '/', 'x', apos] ++ "> fetch(".data ++
        [apos] ++ "/api".data ++ [apos, ')']) :=
  ⟨by decide,
    (unmatched_body_unchanged
      ("<a href=".data ++ [apos, '/', 'x', apos] ++ "> fetch(".data ++
        [apos] ++ "/api".data ++ [apos, ')']) (by decide)).1⟩

/-- Claim C3: every path with the configured /ctf/ location as a prefix
selects the /ctf/ rule over the default root rule (longest matching
location wins), the upstream path is the inbound path with the /ctf
portion removed, and a path matching no rule (here one not starting with
a slash) yields the none signal, which is not an error. -/
theorem ctf_route_selected (p : List Char)
    (h : "/ctf/".data.isPrefixOf p = true) :
    matchRoute routes p = some ctfRoute ∧
    upstreamPath ctfRoute p = p.drop 4 ∧
    matchRoute routes ('x' :: p) = none := by
  rw [ List.isPrefixOf_iff_prefix] at h
  obtain ⟨t, rfl⟩ := h
  have h1 : ctfRoute.location.isPrefixOf ("/ctf/".data ++ t) = true := by
    rw [ List.isPrefixOf_iff_prefix]
    exact ⟨t, rfl⟩
  have h2 : rootRoute.location.isPrefixOf ("/ctf/".data ++ t) = true := by
    rw [ List.isPrefixOf_iff_prefix]
    exact ⟨"ctf/".data ++ t, rfl⟩
  refine ⟨?_, rfl, rfl⟩
  simp only [matchRoute, routes, List.foldl_cons, List.foldl_nil, h1, h2,
    if_true]
  simp [ctfRoute, rootRoute]

/-- Witness for claim C3 at the documented example path /ctf/challenge,
whose upstream path is /challenge. -/
theorem ctf_route_selected_witness :
    (matchRoute routes ("/ctf/challenge".data) = some ctfRoute ∧
      upstreamPath ctfRoute ("/ctf/challenge".data) =
        "/ctf/challenge".data.drop 4 ∧
      matchRoute routes ('x' :: "/ctf/challenge".data) = none) ∧
    "/ctf/challenge".data.drop 4 = "/challenge".data :=
  ⟨ctf_route_selected ("/ctf/challenge".data) (by decide), by decide⟩

/-- Claim C4: every header name on the configured strip list is absent
from the downstream response headers, whatever the upstream sent. -/
theorem hidden_headers_absent (hs : List (List Char × List Char))
    (n : List Char) (hmem : n ∈ hideHeaders) (v : List Char) :
    (n, v) ∉ responseHeaders hs := by
  intro hin
  have hr : responseHeaders hs = stripHeaders hideHeaders hs := rfl
  rw [hr] at hin
  simp only [stripHeaders, List.mem_filter, Bool.not_eq_true'] at hin
  have hc : hideHeaders.contains n = true := List.elem_iff.mpr hmem
  rw [hin.2] at hc
  exact Bool.false_ne_true hc

/-- Witness for claim C4: a Content-Security-Policy header sent by the
upstream does not reach the downstream response. -/
theorem hidden_headers_absent_witness :
    "Content-Security-Policy".data ∈ hideHeaders ∧
    ("Content-Security-Policy".data, "default-src none".data) ∉
      responseHeaders
        [("Content-Security-Policy".data, "default-src none".data),
         ("Content-Type".data, "text/html".data)] :=
  ⟨by decide,
    hidden_headers_absent
      [("Content-Security-Policy".data, "default-src none".data),
       ("Content-Type".data, "text/html".data)]
      "Content-Security-Policy".data (by decide) "default-src none".data⟩

/-- Claim C5: a response whose content type is outside the rewriter
allow-list passes through byte-for-byte unchanged. -/
theorem nontext_passthrough (ct b : List Char)
    (h : ct ∉ subFilterTypes) : processBody ct b = b := by
  simp [processBody, h]

/-- Witness for claim C5: an application/octet-stream body containing a
rewritable pattern is still relayed unmodified. -/
theorem nontext_passthrough_witness :
    "application/octet-stream".data ∉ subFilterTypes ∧
    processBody ("application/octet-stream".data) ("href=\"/".data) =
      "href=\"/".data :=
  ⟨by decide,
    nontext_passthrough ("application/octet-stream".data) ("href=\"/".data)
      (by decide)⟩

/-- Claim C7: an upstream failure on the first and only attempt yields the
502 gateway response whatever further outcomes would have been available —
the Forwarder never retries — and forwardOutcome is a total function, so
no single-request failure can terminate the serving process. -/
theorem upstream_failure_502 (e : UpstreamError)
    (rest : List (Except UpstreamError HttpResponse)) :
    forwardOutcome (Except.error e :: rest) = badGateway ∧
    badGateway.statusCode = 502 :=
  ⟨rfl, rfl⟩

/-- A header name outside the strip list keeps its first value across
stripping. -/
theorem findHeader_stripHeaders (strip : List (List Char)) (n : List Char)
    (hn : n ∉ strip) (hs : List (List Char × List Char)) :
    findHeader n (stripHeaders strip hs) = findHeader n hs := by
  induction hs with
  | nil => rfl
  | cons hd tl ih =>
    by_cases hmem : hd.1 ∈ strip
    · have hb : ¬((hd.1 == n) = true) := by
        intro e
        exact hn (eq_of_beq e ▸ hmem)
      have h1 : stripHeaders strip (hd :: tl) = stripHeaders strip tl := by
        simp [stripHeaders, List.filter_cons, hmem]
      rw [h1, ih]
      simp only [findHeader,
        @List.find?_cons_of_neg _ (fun h => h.1 == n) hd tl hb]
    · have h1 : stripHeaders strip (hd :: tl) =
          hd :: stripHeaders strip tl := by
        simp [stripHeaders, List.filter_cons, hmem]
      rw [h1]
      by_cases hb : (hd.1 == n) = true
      · simp only [findHeader,
          @List.find?_cons_of_pos _ (fun h => h.1 == n) hd
            (stripHeaders strip tl) hb,
          @List.find?_cons_of_pos _ (fun h => h.1 == n) hd tl hb]
      · simp only [findHeader,
          @List.find?_cons_of_neg _ (fun h => h.1 == n) hd
            (stripHeaders strip tl) hb,
          @List.find?_cons_of_neg _ (fun h => h.1 == n) hd tl hb]
        exact ih

/-- Claim C9: for every 3xx upstream response, the status is relayed
verbatim and the Location header reaches the downstream client with its
value unmodified, because the configuration turns proxy_redirect off and
Location is not on the strip list. -/
theorem location_passthrough (status : Nat)
    (hs : List (List Char × List Char))
    (h1 : 300 ≤ status) (h2 : status ≤ 399) :
    (relayResponse status hs).1 = status ∧
    findHeader ("Location".data) (relayResponse status hs).2 =
      findHeader ("Location".data) hs := by
  refine ⟨rfl, ?_⟩
  show findHeader ("Location".data) (stripHeaders hideHeaders hs) =
    findHeader ("Location".data) hs
  exact findHeader_stripHeaders hideHeaders ("Location".data) (by decide) hs

/-- Witness for claim C9 at a concrete 302 redirect carrying a Location
header next to a stripped header. -/
theorem location_passthrough_witness :
    (relayResponse 302
        [("Location".data, "https://ctf.vercel.app/login".data),
         ("X-Frame-Options".data, "DENY".data)]).1 = 302 ∧
    findHeader ("Location".data)
        (relayResponse 302
          [("Location".data, "https://ctf.vercel.app/login".data),
           ("X-Frame-Options".data, "DENY".data)]).2 =
      findHeader ("Location".data)
        [("Location".data, "https://ctf.vercel.app/login".data),
         ("X-Frame-Options".data, "DENY".data)] :=
  location_passthrough 302
    [("Location".data, "https://ctf.vercel.app/login".data),
     ("X-Frame-Options".data, "DENY".data)]
    (by decide) (by decide)

/-- Claim C6: only statuses 200 and 404 are cacheable, with TTLs of one
hour and one minute respectively; a fresh cache entry is served without
contacting the upstream, and once its expiry has passed the entry is
treated as absent, the upstream is contacted, and a cacheable result
overwrites the entry with a new expiry. -/
theorem cache_policy :
    cacheValid 200 = some 3600 ∧ cacheValid 404 = some 60 ∧
    (∀ s : Nat, s ≠ 200 → s ≠ 404 → cacheValid s = none) ∧
    (∀ (e : CacheEntry) (now : Nat) (up : Nat × List Char),
      now < e.expiresAt →
      handleCached (some e) now up = ((e.statusCode, e.body), some e, false)) ∧
    (∀ (e : CacheEntry) (now : Nat) (b : List Char), e.expiresAt ≤ now →
      handleCached (some e) now (200, b) =
        ((200, b), some ⟨200, b, now + 3600⟩, true)) ∧
    (∀ (e : CacheEntry) (now : Nat) (b : List Char), e.expiresAt ≤ now →
      handleCached (some e) now (404, b) =
        ((404, b), some ⟨404, b, now + 60⟩, true)) := by
  refine ⟨rfl, rfl, ?_, ?_, ?_, ?_⟩
  · intro s h200 h404
    simp [cacheValid, h200, h404]
  · intro e now up hfresh
    simp [handleCached, cacheLookup, hfresh]
  · intro e now b hstale
    simp [handleCached, cacheLookup, Nat.not_lt.mpr hstale, cacheValid]
  · intro e now b hstale
    simp [handleCached, cacheLookup, Nat.not_lt.mpr hstale, cacheValid]

/-- Witness for claim C6: a 500 status is not cacheable; a still-fresh 200
entry is served from the cache without an upstream call; an expired 404
entry leads to a fresh upstream fetch whose 200 result overwrites the
entry with a one-hour expiry. -/
theorem cache_policy_witness :
    cacheValid 500 = none ∧
    handleCached (some ⟨200, "ok".data, 100⟩) 99 (404, []) =
      ((200, "ok".data), some ⟨200, "ok".data, 100⟩, false) ∧
    handleCached (some ⟨404, [], 50⟩) 50 (200, "ok".data) =
      ((200, "ok".data), some ⟨200, "ok".data, 3650⟩, true) :=
  ⟨cache_policy.2.2.1 500 (by decide) (by decide),
    cache_policy.2.2.2.1 ⟨200, "ok".data, 100⟩ 99 (404, []) (by decide),
    cache_policy.2.2.2.2.1 ⟨404, [], 50⟩ 50 ("ok".data) (by decide)⟩
